import Mathlib

/-!
Verification of the message-interpretation and action-dispatch core of the
warungku Telegram product-catalog bot.

The Python source under `app/services/` is shallowly embedded here:

* `SupabaseService.*`  models `app/services/supabase_client.py`.  Every
  outbound HTTP call of a method is abstracted by a field of `HttpEnv`
  holding that call's outcome: `.error e` models the `httpx` call raising an
  exception with message `e`, `.ok (status, rows)` models a reply whose
  status code is `status` and whose JSON body is the product list `rows`.
  The audit logger `_log_audit` swallows every exception and its result is
  never consumed, so it cannot influence any value returned to the user and
  is not threaded through the model.
* `ProductService.*`  models `app/services/product_service.py`.  Each method
  returns the reply string together with the list of gateway (SupabaseService
  method) invocations it performs, so that claims about which catalog
  operation runs are statable.
* `LLMService.*`  models `app/services/llm_service.py`.  The outcome of the
  one chat-completion call is abstracted by `LLMOutcome`; `ActionData` models
  the JSON object parsed from the model output (fields absent from the JSON
  are `none`, mirroring `dict.get` defaults).  `user_id` is forwarded by the
  source only to the audit logger, which never influences a reply, so the
  parameter is accepted and dropped.

Python string operations are modelled character-exactly for the ASCII texts
the service processes: `str.lower`, `str.strip`, `str.replace`, substring
containment, and the three regular expressions of the fallback parser
(`\b(\d+)\b`, `per (\w+)$`, `id\s*(\d+)`).
-/

/-! ## Python string primitives -/

/-- Characters treated as whitespace by Python's `str.strip`. -/
def isPySpace (c : Char) : Bool :=
  c = ' ' || c = '\t' || c = '\n' || c = '\r' || c = '\x0b' || c = '\x0c'

/-- Python regex word characters (`\w`) over ASCII. -/
def isWordChar (c : Char) : Bool :=
  c.isAlphanum || c = '_'

/-- `str.lower` (ASCII range, which is all the service's keywords use). -/
def pyLower (l : List Char) : List Char := l.map Char.toLower

/-- `str.strip()`. -/
def pyStrip (l : List Char) : List Char :=
  ((l.dropWhile isPySpace).reverse.dropWhile isPySpace).reverse

/-- Substring containment, the Python `sub in s` test. -/
def containsSub (sub : List Char) : List Char → Bool
  | [] => sub.isEmpty
  | c :: t => sub.isPrefixOf (c :: t) || containsSub sub t

/-- Worker for `replaceAll`; `fuel` bounds the number of scan steps.  Since
every step consumes at least one character of the remaining text, `fuel`
initialised to the text's length makes the `0` arm unreachable; structural
recursion on `fuel` keeps the function definitionally reducible. -/
def replaceAllGo (old new : List Char) : Nat → List Char → List Char
  | _, [] => []
  | 0, l => l
  | fuel + 1, c :: t =>
    if old.isPrefixOf (c :: t) && !old.isEmpty then
      new ++ replaceAllGo old new fuel (t.drop (old.length - 1))
    else
      c :: replaceAllGo old new fuel t

/-- `str.replace(old, new)`: replace every non-overlapping occurrence,
scanning left to right.  (The service never calls it with an empty `old`.) -/
def replaceAll (old new : List Char) (l : List Char) : List Char :=
  replaceAllGo old new l.length l

/-- Value of a decimal digit string, as computed by Python's `int(...)`. -/
def digitsToNat (l : List Char) : Nat :=
  l.foldl (fun n c => 10 * n + (c.toNat - 48)) 0

theorem dropWhile_len_le (p : Char → Bool) : ∀ l : List Char, (l.dropWhile p).length ≤ l.length
  | [] => Nat.le_refl 0
  | c :: t => by
    simp only [List.dropWhile]
    cases p c
    · simp
    · exact Nat.le_trans (dropWhile_len_le p t) (Nat.le_succ _)

/-- `re.search(r'\b(\d+)\b', s)`: the first maximal digit run that is
preceded and followed by a non-word character (or the string edge).
`prevWord` records whether the character just before the scan point is a
word character (initially `false`).  When a digit run fails the trailing
word-boundary test, `re.search` restarts after it: every start inside the
run fails the leading boundary and the character after it is a word
character, which is what the recursive call with `prevWord := true`
captures. -/
def findIntTokGo : Nat → Bool → List Char → Option (List Char)
  | _, _, [] => none
  | 0, _, _ => none
  | fuel + 1, prevWord, c :: t =>
    if c.isDigit && !prevWord then
      let rest := t.dropWhile Char.isDigit
      if h : rest = [] then some (c :: t.takeWhile Char.isDigit)
      else if !isWordChar (rest.head h) then some (c :: t.takeWhile Char.isDigit)
      else findIntTokGo fuel true rest
    else findIntTokGo fuel (isWordChar c) t

/-- Entry point: `fuel` is the text length, making the worker's `0` arm
unreachable (every step consumes at least one character). -/
def findIntTok (prevWord : Bool) (l : List Char) : Option (List Char) :=
  findIntTokGo l.length prevWord l

/-- `re.search(r'per (\w+)$', s)`: the match succeeds exactly when the string
ends in `per ` followed by a non-empty word-character run, and the captured
group is that trailing run (the run is maximal because the character before
it, the space of `per `, is a non-word character). -/
def perUnitMatch (s : List Char) : Option (List Char) :=
  let rev := s.reverse
  let runRev := rev.takeWhile isWordChar
  let restRev := rev.dropWhile isWordChar
  if runRev.isEmpty then none
  else if ("per ".toList.reverse).isPrefixOf restRev then some runRev.reverse
  else none

/-- `re.search(r'id\s*(\d+)', s)`: leftmost occurrence of `id`, optional
whitespace, then a maximal digit run (the captured group).  When the digits
are missing at one `id` occurrence the scan resumes one character later,
exactly as `re.search` does. -/
def idNumMatch : List Char → Option (List Char)
  | [] => none
  | c :: t =>
    if c = 'i' then
      match t with
      | 'd' :: t2 =>
        let run := (t2.dropWhile isPySpace).takeWhile Char.isDigit
        if run.isEmpty then idNumMatch t else some run
      | _ => idNumMatch t
    else idNumMatch t

/-- Insert a thousands separator every three digits, input reversed. -/
def commaRev : List Char → List Char
  | a :: b :: c :: d :: rest => a :: b :: c :: ',' :: commaRev (d :: rest)
  | l => l

/-- Python's `f"{i:,}"` formatting of an integer. -/
def pyFmtComma (i : Int) : String :=
  (if i < 0 then "-" else "") ++ ((commaRev (toString i.natAbs).toList.reverse).reverse).asString

/-! String-typed wrappers. -/

def pyLowerS (s : String) : String := (pyLower s.toList).asString

def pyStripS (s : String) : String := (pyStrip s.toList).asString

def pyReplaceS (s old new : String) : String :=
  (replaceAll old.toList new.toList s.toList).asString

def containsS (s sub : String) : Bool := containsSub sub.toList s.toList

/-- `message.lower().strip()`, the processed text the fallback parser works on. -/
def mlOf (message : String) : String := pyStripS (pyLowerS message)

/-! ## Data model (`app/models/database.py`) -/

/-- `Product` (pydantic model): `id` is `Optional[int]`, `unit` is
`Optional[str]`.  The timestamp fields never influence any reply and are
omitted. -/
structure Product where
  id : Option Int
  name : String
  price : Int
  unit : Option String
deriving DecidableEq, Repr

/-- One invocation of a `SupabaseService` method — the catalog-gateway
operations the executor can trigger. -/
inductive GatewayCall where
  | getByName (name : String)
  | search (query : String)
  | upsert (name : String) (price : Int) (unit : Option String)
  | updateById (id : Int) (price : Int) (unit : Option String)
  | deleteByName (name : String)
  | deleteById (id : Int)
deriving DecidableEq, Repr

/-- Outcome of one `httpx` request: `.error e` models the call raising an
exception with message `e`; `.ok (status, rows)` a response with that status
code whose JSON body parses to `rows`. -/
def HttpResult : Type := Except String (Nat × List Product)

/-- Outcomes of the individual HTTP requests a `SupabaseService` method can
issue (each method consults each relevant field at most once). -/
structure HttpEnv where
  /-- `GET /rest/v1/products?name=ilike.*…*&limit=1` (find by name). -/
  find : Except String (Nat × List Product)
  /-- `GET /rest/v1/products?id=eq.…&limit=1` (find by id). -/
  getById : Except String (Nat × List Product)
  /-- `PATCH` or `POST /rest/v1/products` (the mutating write). -/
  write : Except String (Nat × List Product)
  /-- `DELETE /rest/v1/products` (status code of the delete). -/
  del : Except String Nat
  /-- `GET /rest/v1/products?name=ilike.*…*` (search). -/
  searchRes : Except String (Nat × List Product)

/-! ## `SupabaseService` (`app/services/supabase_client.py`)

Every method wraps its body in `try/except` and converts an exception into a
benign return value, so the embeddings are total.  `_log_audit` posts the
audit record and swallows any error; it neither returns data nor raises, so
it has no observable effect on these results and is not modelled as a value.
-/

/-- `get_product_by_name`: 200 with a non-empty body yields the first row,
anything else (including a raised exception) yields `None`. -/
def SupabaseService.get_product_by_name (env : HttpEnv) (product_name : String) :
    Option Product :=
  match env.find with
  | .error _ => none
  | .ok (status, rows) =>
    if status = 200 then
      match rows with
      | p :: _ => some p
      | [] => none
    else none

/-- `upsert_product`: find by name; patch (existing) or post (new); on any
failure — non-2xx status, empty body, or a raised exception — the `except`
arm returns the mock product `Product(id=1, name=product_name, price=price,
unit=unit)` ("for demo purposes", per the source comment). -/
def SupabaseService.upsert_product (env : HttpEnv) (product_name : String)
    (price : Int) (unit : Option String) : Product :=
  match SupabaseService.get_product_by_name env product_name with
  | some _ =>
    match env.write with
    | .ok (200, p :: _) => p
    | _ => { id := some 1, name := product_name, price := price, unit := unit }
  | none =>
    match env.write with
    | .ok (201, p :: _) => p
    | _ => { id := some 1, name := product_name, price := price, unit := unit }

/-- `delete_product_by_id`: fetch by id (missing → `False`), delete, require
status 200 or 204; exceptions yield `False`.  Note: no caller in the
repository ever invokes this method. -/
def SupabaseService.delete_product_by_id (env : HttpEnv) (product_id : Int) : Bool :=
  match env.getById with
  | .error _ => false
  | .ok (status, rows) =>
    if status = 200 && !rows.isEmpty then
      match env.del with
      | .ok s => s = 200 || s = 204
      | .error _ => false
    else false

/-- `delete_product` (by name): find by name (missing → `False`), delete,
require status 200 or 204; exceptions yield `False`. -/
def SupabaseService.delete_product (env : HttpEnv) (product_name : String) : Bool :=
  match SupabaseService.get_product_by_name env product_name with
  | none => false
  | some _ =>
    match env.del with
    | .ok s => s = 200 || s = 204
    | .error _ => false

/-- `update_product_by_id`: fetch by id (non-200 or empty body → `None`),
patch (non-200 or empty body → `None`); exceptions yield `None`. -/
def SupabaseService.update_product_by_id (env : HttpEnv) (product_id : Int)
    (price : Int) (unit : Option String) : Option Product :=
  match env.getById with
  | .error _ => none
  | .ok (status, rows) =>
    if status = 200 && !rows.isEmpty then
      match env.write with
      | .ok (200, p :: _) => some p
      | _ => none
    else none

/-- `search_products`: a 200 response yields its rows (possibly empty);
anything else, including exceptions, yields `[]`. -/
def SupabaseService.search_products (env : HttpEnv) (query : String) : List Product :=
  match env.searchRes with
  | .ok (200, rows) => rows
  | _ => []

/-! ## `ProductService` (`app/services/product_service.py`)

Each method returns the reply string paired with the list of
`SupabaseService` operations it invoked.  The `except` arms of the source
(`"Terjadi kesalahan saat …"` replies) are unreachable because every
`SupabaseService` method catches its own exceptions, so they do not appear
as values here.  Python's truthiness test `if product.unit` is false for
both `None` and the empty string. -/

/-- `f" per {product.unit}" if product.unit else ""`. -/
def unit_text (u : Option String) : String :=
  match u with
  | some s => if s = "" then "" else " per " ++ s
  | none => ""

/-- Rendering of the `Optional[int]` product id inside an f-string. -/
def optIdStr (i : Option Int) : String :=
  match i with
  | some n => toString n
  | none => "None"

/-- `get_product_price`. -/
def ProductService.get_product_price (env : HttpEnv) (product_name : String) :
    String × List GatewayCall :=
  (match SupabaseService.get_product_by_name env product_name with
   | some p =>
     "Harga " ++ p.name ++ " (ID: " ++ optIdStr p.id ++ ") saat ini adalah " ++
       pyFmtComma p.price ++ " " ++ unit_text p.unit ++ "."
   | none => "Produk \x27" ++ product_name ++ "\x27 tidak ditemukan di database.",
   [.getByName product_name])

/-- `update_product_price`: validates the price before any gateway call,
then upserts by name. -/
def ProductService.update_product_price (env : HttpEnv) (product_name : String)
    (new_price : Int) (unit : Option String) : String × List GatewayCall :=
  if new_price ≤ 0 then ("Harga harus lebih dari 0.", [])
  else
    let product := SupabaseService.upsert_product env product_name new_price unit
    ("Harga " ++ product.name ++ " (ID: " ++ optIdStr product.id ++
       ") berhasil diperbarui menjadi " ++ pyFmtComma new_price ++ " " ++
       unit_text product.unit ++ ".",
     [.upsert product_name new_price unit])

/-- `delete_product` (by name). -/
def ProductService.delete_product (env : HttpEnv) (product_name : String) :
    String × List GatewayCall :=
  ((if SupabaseService.delete_product env product_name then
      "Produk \x27" ++ product_name ++ "\x27 berhasil dihapus dari database."
    else
      "Produk \x27" ++ product_name ++ "\x27 tidak ditemukan di database."),
   [.deleteByName product_name])

/-- `update_product_by_id`: validates the price before any gateway call,
then updates by id; `None` from the gateway yields the not-found reply. -/
def ProductService.update_product_by_id (env : HttpEnv) (product_id : Int)
    (new_price : Int) (unit : Option String) : String × List GatewayCall :=
  if new_price ≤ 0 then ("Harga harus lebih dari 0.", [])
  else
    (match SupabaseService.update_product_by_id env product_id new_price unit with
     | some p =>
       "Harga " ++ p.name ++ " (ID: " ++ optIdStr p.id ++
         ") berhasil diperbarui menjadi " ++ pyFmtComma new_price ++ " " ++
         unit_text p.unit ++ "."
     | none => "Produk dengan ID " ++ toString product_id ++ " tidak ditemukan.",
     [.updateById product_id new_price unit])

/-- `search_products`.  The bullet string reproduces the source bytes
(`"â€¢"`, a mojibake sequence) exactly. -/
def ProductService.search_products (env : HttpEnv) (query : String) :
    String × List GatewayCall :=
  (let products := SupabaseService.search_products env query
   if products.isEmpty then
     "Tidak ada produk yang ditemukan untuk query \x27" ++ query ++ "\x27."
   else
     "Ditemukan " ++ toString products.length ++ " produk:\n\n" ++
       String.join (products.map (fun p =>
         "â€¢ " ++ p.name ++ " (ID: " ++ optIdStr p.id ++ "): " ++
           pyFmtComma p.price ++ " " ++ unit_text p.unit ++ "\n")),
   [.search query])

/-! ## `LLMService` (`app/services/llm_service.py`) -/

/-- The JSON object parsed from the language-model output, as consumed by
`_execute_action` through `dict.get`.  A field absent from the JSON is
`none`; `dict.get` then supplies the defaults visible in the source
(`""`, `0`, `None`).  (JSON objects carrying non-integer prices or explicit
nulls are outside this model's scope; the claims only concern integer or
absent fields.) -/
structure ActionData where
  action : Option String
  product_name : Option String
  product_id : Option Int
  price : Option Int
  unit : Option String
  query : Option String
deriving DecidableEq, Repr

/-- `_execute_action`: the `if action == …` chain of the source.  The final
arm replies `"Aksi tidak dikenali."` for a missing or unknown discriminator
and performs no gateway call. -/
def LLMService.execute_action (env : HttpEnv) (d : ActionData)
    (user_id : Option String) : String × List GatewayCall :=
  if d.action = some "get_price" then
    ProductService.get_product_price env (d.product_name.getD "")
  else if d.action = some "update_price" then
    ProductService.update_product_price env (d.product_name.getD "") (d.price.getD 0) d.unit
  else if d.action = some "update_price_by_id" then
    ProductService.update_product_by_id env (d.product_id.getD 0) (d.price.getD 0) d.unit
  else if d.action = some "delete_product" then
    ProductService.delete_product env (d.product_name.getD "")
  else if d.action = some "search_products" then
    ProductService.search_products env (d.query.getD "")
  else
    ("Aksi tidak dikenali.", [])

/-- Keywords of the price-query branch of `_fallback_interpretation`. -/
def price_keywords : List String := ["berapa harga", "harga", "cari harga"]

/-- Keywords of the update/create branch. -/
def update_keywords : List String :=
  ["ubah harga", "update harga", "ganti harga", "tambah", "tambahkan"]

/-- Keywords of the delete branch. -/
def delete_keywords : List String := ["hapus", "delete", "buang"]

/-- Keywords of the search branch. -/
def search_keywords : List String := ["cari", "search", "tampilkan"]

/-- Keywords of the id-update branch. -/
def id_keywords : List String := ["id", "update id", "ubah id"]

/-- `any(keyword in message_lower for keyword in kws)`. -/
def kwHit (kws : List String) (ml : String) : Bool :=
  kws.any (fun kw => containsS ml kw)

/-- The fixed help reply of the fallback's default arm, byte-for-byte from
the source. -/
def helpMessage : String :=
  "Maaf, saya tidak mengerti permintaan Anda. Silakan coba dengan format seperti:\n\n• \x27berapa harga minyak\x27\n• \x27ubah harga minyak 4000\x27\n• \x27update id 123 harga 4000\x27\n• \x27ubah id 45 harga 5000 per kg\x27\n• \x27tambah gula 17000 per kg\x27\n• \x27hapus produk beras\x27\n• \x27cari produk minyak\x27\n\n• Semua produk sekarang menampilkan ID untuk memudahkan update"

/-- Loop body of the price-query branch: first keyword present in the text
whose removal leaves a non-empty product name wins; an empty name moves on
to the next keyword. -/
def price_branch (env : HttpEnv) (ml : String) :
    List String → Option (String × List GatewayCall)
  | [] => none
  | kw :: rest =>
    if containsS ml kw then
      let product_name := pyStripS (pyReplaceS ml kw "")
      if product_name ≠ "" then some (ProductService.get_product_price env product_name)
      else price_branch env ml rest
    else price_branch env ml rest

/-- Loop body of the update/create branch (the price, the first integer
token of the original-case message, was already extracted): strip the
keyword and the decimal rendering of the price, split off a trailing
`per <unit>`, and upsert under the remaining name if non-empty. -/
def update_branch (env : HttpEnv) (ml : String) (price : Nat) :
    List String → Option (String × List GatewayCall)
  | [] => none
  | kw :: rest =>
    if containsS ml kw then
      let remaining := pyStripS (pyReplaceS (pyReplaceS ml kw "") (toString price) "")
      match perUnitMatch remaining.toList with
      | some u =>
        let unit := u.asString
        let product_name := pyStripS (pyReplaceS remaining ("per " ++ unit) "")
        if product_name ≠ "" then
          some (ProductService.update_product_price env product_name (Int.ofNat price) (some unit))
        else update_branch env ml price rest
      | none =>
        let product_name := pyStripS remaining
        if product_name ≠ "" then
          some (ProductService.update_product_price env product_name (Int.ofNat price) none)
        else update_branch env ml price rest
    else update_branch env ml price rest

/-- Loop body of the delete branch: whatever non-empty text remains after
removing the keyword is passed to the delete-by-name operation — there is
no integer case. -/
def delete_branch (env : HttpEnv) (ml : String) :
    List String → Option (String × List GatewayCall)
  | [] => none
  | kw :: rest =>
    if containsS ml kw then
      let product_name := pyStripS (pyReplaceS ml kw "")
      if product_name ≠ "" then some (ProductService.delete_product env product_name)
      else delete_branch env ml rest
    else delete_branch env ml rest

/-- Loop body of the search branch. -/
def search_branch (env : HttpEnv) (ml : String) :
    List String → Option (String × List GatewayCall)
  | [] => none
  | kw :: rest =>
    if containsS ml kw then
      let query := pyStripS (pyReplaceS ml kw "")
      if query ≠ "" then some (ProductService.search_products env query)
      else search_branch env ml rest
    else search_branch env ml rest

/-- `_fallback_interpretation`: the `if/elif` chain of the source, in source
order — price query, update/create, delete, search, id-update — each keyed
on substring containment in `message.lower().strip()`; a branch whose
extraction fails falls through to the fixed help reply.  In the id-update
branch the id comes from `id\s*(\d+)` on the lowered text and the price from
the FIRST integer token of the original message (which can be the id
itself); the optional unit is a trailing `per <word>` of the lowered text. -/
def LLMService.fallback_interpretation (env : HttpEnv) (message : String)
    (user_id : Option String) : String × List GatewayCall :=
  let ml := mlOf message
  if kwHit price_keywords ml then
    (price_branch env ml price_keywords).getD (helpMessage, [])
  else if kwHit update_keywords ml then
    match findIntTok false message.toList with
    | some run => (update_branch env ml (digitsToNat run) update_keywords).getD (helpMessage, [])
    | none => (helpMessage, [])
  else if kwHit delete_keywords ml then
    (delete_branch env ml delete_keywords).getD (helpMessage, [])
  else if kwHit search_keywords ml then
    (search_branch env ml search_keywords).getD (helpMessage, [])
  else if kwHit id_keywords ml then
    match idNumMatch ml.toList, findIntTok false message.toList with
    | some idRun, some priceRun =>
      ProductService.update_product_by_id env (Int.ofNat (digitsToNat idRun))
        (Int.ofNat (digitsToNat priceRun)) ((perUnitMatch ml.toList).map List.asString)
    | _, _ => (helpMessage, [])
  else (helpMessage, [])

/-- Outcome of the single chat-completion call made per message:
the call raised (network, timeout, non-2xx), the output was not valid JSON,
or a JSON object was parsed. -/
inductive LLMOutcome where
  | failure (reason : String)
  | badJson (raw : String)
  | parsed (d : ActionData)

/-- `_interpret_with_llm`: a raised call or undecodable JSON yields `None`
(no retry of the model); parsed JSON is executed. -/
def LLMService.interpret_with_llm (env : HttpEnv) (llm : LLMOutcome)
    (user_id : Option String) : Option (String × List GatewayCall) :=
  match llm with
  | .failure _ => none
  | .badJson _ => none
  | .parsed d => some (LLMService.execute_action env d user_id)

/-- `process_message`, the sole entry point: try the model once; a `None`
or empty reply falls back to `_fallback_interpretation` on the original
message.  (The source's outer `except` arm also lands in the fallback; the
embedding is total, matching the source's guarantee that no exception
escapes.) -/
def LLMService.process_message (env : HttpEnv) (llm : LLMOutcome)
    (message : String) (user_id : Option String) : String × List GatewayCall :=
  match LLMService.interpret_with_llm env llm user_id with
  | some r =>
    if r.1 = "" then LLMService.fallback_interpretation env message user_id else r
  | none => LLMService.fallback_interpretation env message user_id

/-! ## Specification-side definitions (for claim statements only) -/

/-- Modelled from the spec: the single gateway operation that the spec's
claim C8 associates to each action variant.  This mirrors the claim's
wording, for comparison with the executor's behaviour; `none` for the
Unrecognized variant. -/
def corresponding_call (d : ActionData) : Option GatewayCall :=
  if d.action = some "get_price" then
    some (.getByName (d.product_name.getD ""))
  else if d.action = some "update_price" then
    some (.upsert (d.product_name.getD "") (d.price.getD 0) d.unit)
  else if d.action = some "update_price_by_id" then
    some (.updateById (d.product_id.getD 0) (d.price.getD 0) d.unit)
  else if d.action = some "delete_product" then
    some (.deleteByName (d.product_name.getD ""))
  else if d.action = some "search_products" then
    some (.search (d.query.getD ""))
  else none

/-- The price carried by a price-bearing action variant (after `dict.get`
defaults) is positive; vacuously true for the other variants. -/
def priceOk (d : ActionData) : Bool :=
  if d.action = some "update_price" ∨ d.action = some "update_price_by_id" then
    decide (0 < d.price.getD 0)
  else true

/-- An environment in which every HTTP request raises (gateway transport
failure). -/
def failEnv (e1 e2 e3 e4 e5 : String) : HttpEnv :=
  { find := .error e1, getById := .error e2, write := .error e3,
    del := .error e4, searchRes := .error e5 }

/-- A concrete failing environment for closed counterexamples. -/
def envFail : HttpEnv :=
  failEnv "connection error" "connection error" "connection error"
    "connection error" "connection error"

/-! ## Helper lemmas -/

theorem strDataAppend (s t : String) : (s ++ t).data = s.data ++ t.data := by
  cases s; cases t; rfl

theorem strEqOfData : ∀ {s t : String}, s.data = t.data → s = t
  | ⟨_⟩, ⟨_⟩, h => congrArg String.mk (by simpa using h)

theorem appendNeEmptyL (s t : String) (h : s ≠ "") : s ++ t ≠ "" := by
  intro he
  apply h
  apply strEqOfData
  have h2 := congrArg String.data he
  rw [strDataAppend] at h2
  exact (List.append_eq_nil.mp h2).1

theorem appendNeEmptyR (s t : String) (h : t ≠ "") : s ++ t ≠ "" := by
  intro he
  apply h
  apply strEqOfData
  have h2 := congrArg String.data he
  rw [strDataAppend] at h2
  exact (List.append_eq_nil.mp h2).2

/-- Every reply of `get_product_price` is non-empty. -/
theorem get_product_price_ne (env : HttpEnv) (n : String) :
    (ProductService.get_product_price env n).1 ≠ "" := by
  unfold ProductService.get_product_price
  cases h : SupabaseService.get_product_by_name env n with
  | some p => simpa [h] using appendNeEmptyR _ _ (by decide)
  | none => simpa [h] using appendNeEmptyR _ _ (by decide)

/-- Every reply of `update_product_price` is non-empty. -/
theorem update_product_price_ne (env : HttpEnv) (n : String) (p : Int) (u : Option String) :
    (ProductService.update_product_price env n p u).1 ≠ "" := by
  unfold ProductService.update_product_price
  split
  · decide
  · simpa using appendNeEmptyR _ _ (by decide)

/-- Every reply of `delete_product` is non-empty. -/
theorem delete_product_ne (env : HttpEnv) (n : String) :
    (ProductService.delete_product env n).1 ≠ "" := by
  unfold ProductService.delete_product
  split
  · simpa using appendNeEmptyR _ _ (by decide)
  · simpa using appendNeEmptyR _ _ (by decide)

/-- Every reply of `update_product_by_id` is non-empty. -/
theorem update_product_by_id_ne (env : HttpEnv) (i : Int) (p : Int) (u : Option String) :
    (ProductService.update_product_by_id env i p u).1 ≠ "" := by
  unfold ProductService.update_product_by_id
  split
  · decide
  · cases h : SupabaseService.update_product_by_id env i p u with
    | some q => simpa [h] using appendNeEmptyR _ _ (by decide)
    | none => simpa [h] using appendNeEmptyR _ _ (by decide)

/-- Every reply of `search_products` is non-empty. -/
theorem search_products_ne (env : HttpEnv) (q : String) :
    (ProductService.search_products env q).1 ≠ "" := by
  unfold ProductService.search_products
  dsimp only
  split
  · simpa using appendNeEmptyR _ _ (by decide)
  · exact appendNeEmptyL _ _ (appendNeEmptyR _ _ (by decide))

/-- The help reply is non-empty. -/
theorem helpMessage_ne : helpMessage ≠ "" := by decide

/-! Trace shapes of the `ProductService` methods. -/

theorem get_product_price_tr (env : HttpEnv) (n : String) :
    (ProductService.get_product_price env n).2 = [.getByName n] := rfl

theorem update_product_price_tr (env : HttpEnv) (n : String) (p : Int) (u : Option String) :
    (ProductService.update_product_price env n p u).2
      = if p ≤ 0 then [] else [.upsert n p u] := by
  unfold ProductService.update_product_price
  split <;> simp_all

theorem delete_product_tr (env : HttpEnv) (n : String) :
    (ProductService.delete_product env n).2 = [.deleteByName n] := rfl

theorem update_product_by_id_tr (env : HttpEnv) (i : Int) (p : Int) (u : Option String) :
    (ProductService.update_product_by_id env i p u).2
      = if p ≤ 0 then [] else [.updateById i p u] := by
  unfold ProductService.update_product_by_id
  split <;> simp_all

theorem search_products_tr (env : HttpEnv) (q : String) :
    (ProductService.search_products env q).2 = [.search q] := rfl

theorem price_branch_some {env : HttpEnv} {ml : String} {r : String × List GatewayCall} :
    ∀ kws, price_branch env ml kws = some r →
      ∃ n, r = ProductService.get_product_price env n := by
  intro kws
  induction kws with
  | nil => intro h; simp [price_branch] at h
  | cons kw rest ih =>
    intro h
    unfold price_branch at h
    dsimp only at h
    split at h
    · split at h
      · exact ⟨_, (Option.some.inj h).symm⟩
      · exact ih h
    · exact ih h

theorem update_branch_some {env : HttpEnv} {ml : String} {price : Nat}
    {r : String × List GatewayCall} :
    ∀ kws, update_branch env ml price kws = some r →
      ∃ n u, r = ProductService.update_product_price env n (Int.ofNat price) u := by
  intro kws
  induction kws with
  | nil => intro h; simp [update_branch] at h
  | cons kw rest ih =>
    intro h
    unfold update_branch at h
    dsimp only at h
    split at h
    · split at h
      · split at h
        · exact ⟨_, _, (Option.some.inj h).symm⟩
        · exact ih h
      · split at h
        · exact ⟨_, _, (Option.some.inj h).symm⟩
        · exact ih h
    · exact ih h

theorem delete_branch_some {env : HttpEnv} {ml : String} {r : String × List GatewayCall} :
    ∀ kws, delete_branch env ml kws = some r →
      ∃ n, r = ProductService.delete_product env n := by
  intro kws
  induction kws with
  | nil => intro h; simp [delete_branch] at h
  | cons kw rest ih =>
    intro h
    unfold delete_branch at h
    dsimp only at h
    split at h
    · split at h
      · exact ⟨_, (Option.some.inj h).symm⟩
      · exact ih h
    · exact ih h

theorem search_branch_some {env : HttpEnv} {ml : String} {r : String × List GatewayCall} :
    ∀ kws, search_branch env ml kws = some r →
      ∃ q, r = ProductService.search_products env q := by
  intro kws
  induction kws with
  | nil => intro h; simp [search_branch] at h
  | cons kw rest ih =>
    intro h
    unfold search_branch at h
    dsimp only at h
    split at h
    · split at h
      · exact ⟨_, (Option.some.inj h).symm⟩
      · exact ih h
    · exact ih h

/-- Every fallback result is the help reply or one of the five
`ProductService` calls. -/
theorem fallback_shape (env : HttpEnv) (message : String) (user_id : Option String) :
    LLMService.fallback_interpretation env message user_id = (helpMessage, [])
    ∨ (∃ n, LLMService.fallback_interpretation env message user_id
          = ProductService.get_product_price env n)
    ∨ (∃ n p u, LLMService.fallback_interpretation env message user_id
          = ProductService.update_product_price env n p u)
    ∨ (∃ n, LLMService.fallback_interpretation env message user_id
          = ProductService.delete_product env n)
    ∨ (∃ q, LLMService.fallback_interpretation env message user_id
          = ProductService.search_products env q)
    ∨ (∃ i p u, LLMService.fallback_interpretation env message user_id
          = ProductService.update_product_by_id env i p u) := by
  unfold LLMService.fallback_interpretation
  dsimp only
  split
  · cases h : price_branch env (mlOf message) price_keywords with
    | none => left; simp [h]
    | some r =>
      obtain ⟨n, hn⟩ := price_branch_some _ h
      right; left; exact ⟨n, by simp [h, hn]⟩
  · split
    · split
      · rename_i run heq
        cases h : update_branch env (mlOf message) (digitsToNat run) update_keywords with
        | none => left; simp [h]
        | some r =>
          obtain ⟨n, u, hn⟩ := update_branch_some _ h
          right; right; left
          exact ⟨n, Int.ofNat (digitsToNat run), u, by simp [h, hn]⟩
      · left; rfl
    · split
      · cases h : delete_branch env (mlOf message) delete_keywords with
        | none => left; simp [h]
        | some r =>
          obtain ⟨n, hn⟩ := delete_branch_some _ h
          right; right; right; left; exact ⟨n, by simp [h, hn]⟩
      · split
        · cases h : search_branch env (mlOf message) search_keywords with
          | none => left; simp [h]
          | some r =>
            obtain ⟨q, hq⟩ := search_branch_some _ h
            right; right; right; right; left; exact ⟨q, by simp [h, hq]⟩
        · split
          · split
            · right; right; right; right; right; exact ⟨_, _, _, rfl⟩
            · left; rfl
          · left; rfl

/-- Every fallback reply is non-empty. -/
theorem fallback_ne (env : HttpEnv) (message : String) (user_id : Option String) :
    (LLMService.fallback_interpretation env message user_id).1 ≠ "" := by
  rcases fallback_shape env message user_id with
      h | ⟨n, h⟩ | ⟨n, p, u, h⟩ | ⟨n, h⟩ | ⟨q, h⟩ | ⟨i, p, u, h⟩ <;> rw [h]
  · exact helpMessage_ne
  · exact get_product_price_ne env n
  · exact update_product_price_ne env n p u
  · exact delete_product_ne env n
  · exact search_products_ne env q
  · exact update_product_by_id_ne env i p u

/-- Every `_execute_action` result is the unknown-action reply or one of the
five `ProductService` calls. -/
theorem exec_shape (env : HttpEnv) (d : ActionData) (uid : Option String) :
    LLMService.execute_action env d uid = ("Aksi tidak dikenali.", [])
    ∨ (∃ n, LLMService.execute_action env d uid = ProductService.get_product_price env n)
    ∨ (∃ n p u, LLMService.execute_action env d uid
          = ProductService.update_product_price env n p u)
    ∨ (∃ i p u, LLMService.execute_action env d uid
          = ProductService.update_product_by_id env i p u)
    ∨ (∃ n, LLMService.execute_action env d uid = ProductService.delete_product env n)
    ∨ (∃ q, LLMService.execute_action env d uid = ProductService.search_products env q) := by
  unfold LLMService.execute_action
  split
  · right; left; exact ⟨_, rfl⟩
  · split
    · right; right; left; exact ⟨_, _, _, rfl⟩
    · split
      · right; right; right; left; exact ⟨_, _, _, rfl⟩
      · split
        · right; right; right; right; left; exact ⟨_, rfl⟩
        · split
          · right; right; right; right; right; exact ⟨_, rfl⟩
          · left; rfl

/-- `_execute_action` never invokes the (dead) delete-by-id gateway method. -/
theorem exec_no_deleteById (env : HttpEnv) (d : ActionData) (uid : Option String) (i : Int) :
    GatewayCall.deleteById i ∉ (LLMService.execute_action env d uid).2 := by
  rcases exec_shape env d uid with
      h | ⟨n, h⟩ | ⟨n, p, u, h⟩ | ⟨j, p, u, h⟩ | ⟨n, h⟩ | ⟨q, h⟩ <;> rw [h]
  · simp
  · rw [get_product_price_tr]; simp
  · rw [update_product_price_tr]; split <;> simp
  · rw [update_product_by_id_tr]; split <;> simp
  · rw [delete_product_tr]; simp
  · rw [search_products_tr]; simp

/-- The fallback parser never invokes the (dead) delete-by-id gateway
method either. -/
theorem fallback_no_deleteById (env : HttpEnv) (message : String)
    (uid : Option String) (i : Int) :
    GatewayCall.deleteById i ∉ (LLMService.fallback_interpretation env message uid).2 := by
  rcases fallback_shape env message uid with
      h | ⟨n, h⟩ | ⟨n, p, u, h⟩ | ⟨n, h⟩ | ⟨q, h⟩ | ⟨j, p, u, h⟩ <;> rw [h]
  · simp
  · rw [get_product_price_tr]; simp
  · rw [update_product_price_tr]; split <;> simp
  · rw [delete_product_tr]; simp
  · rw [search_products_tr]; simp
  · rw [update_product_by_id_tr]; split <;> simp

/-- `process_message` never invokes the delete-by-id gateway method. -/
theorem process_no_deleteById (env : HttpEnv) (llm : LLMOutcome) (message : String)
    (uid : Option String) (i : Int) :
    GatewayCall.deleteById i ∉ (LLMService.process_message env llm message uid).2 := by
  unfold LLMService.process_message LLMService.interpret_with_llm
  cases llm with
  | failure r => exact fallback_no_deleteById env message uid i
  | badJson r => exact fallback_no_deleteById env message uid i
  | parsed d =>
    dsimp only
    split
    · exact fallback_no_deleteById env message uid i
    · exact exec_no_deleteById env d uid i

/-! ## Claims -/

/-- C6: if the language-model call fails (raises, times out) or its output is
not parseable as JSON, the interpreter's reply (and its gateway trace) equals
the fallback parser's on the same input text; the model is consulted at most
once per message by construction (`process_message` consumes one
`LLMOutcome`). -/
theorem C6_llm_failure_falls_back (env : HttpEnv) (message : String)
    (uid : Option String) (reason raw : String) :
    LLMService.process_message env (.failure reason) message uid
        = LLMService.fallback_interpretation env message uid
    ∧ LLMService.process_message env (.badJson raw) message uid
        = LLMService.fallback_interpretation env message uid :=
  ⟨rfl, rfl⟩

/-- C7: for every input text (empty included), user id, language-model
outcome and gateway behaviour, `process_message` returns a non-empty reply;
totality of the embedding reflects that every exception in the source is
caught and converted to a reply. -/
theorem C7_never_empty_reply (env : HttpEnv) (llm : LLMOutcome) (message : String)
    (uid : Option String) :
    (LLMService.process_message env llm message uid).1 ≠ "" := by
  unfold LLMService.process_message LLMService.interpret_with_llm
  cases llm with
  | failure r => exact fallback_ne env message uid
  | badJson r => exact fallback_ne env message uid
  | parsed d =>
    dsimp only
    split
    · exact fallback_ne env message uid
    · next h => exact h

/-- C9: an action carrying a non-positive price yields the validation reply
and an empty gateway trace — no mutation and hence no audit append, the
check running before any gateway operation. -/
theorem C9_nonpositive_price_rejected (env : HttpEnv) (d : ActionData)
    (uid : Option String) (p : Int)
    (hA : d.action = some "update_price" ∨ d.action = some "update_price_by_id")
    (hp : d.price = some p) (hle : p ≤ 0) :
    LLMService.execute_action env d uid = ("Harga harus lebih dari 0.", []) := by
  rcases hA with h | h <;>
    simp [LLMService.execute_action, h, ProductService.update_product_price,
      ProductService.update_product_by_id, hp, hle]

/-- C9 witness: the validation at a concrete negative price. -/
theorem C9_witness :
    ((⟨some "update_price", some "gula", none, some (-5), none, none⟩ : ActionData).action
          = some "update_price"
      ∨ (⟨some "update_price", some "gula", none, some (-5), none, none⟩ : ActionData).action
          = some "update_price_by_id")
    ∧ (⟨some "update_price", some "gula", none, some (-5), none, none⟩ : ActionData).price
          = some (-5)
    ∧ ((-5 : Int) ≤ 0)
    ∧ LLMService.execute_action envFail
        ⟨some "update_price", some "gula", none, some (-5), none, none⟩ none
        = ("Harga harus lebih dari 0.", []) :=
  ⟨Or.inl rfl, rfl, by decide,
   C9_nonpositive_price_rejected envFail _ none (-5) (Or.inl rfl) rfl (by decide)⟩

/-- C10: a well-formed model output whose discriminator is `update_price` or
`update_price_by_id` but which omits the `price` field gets the default 0
from `dict.get`, is rejected by the non-positive-price guard, and reaches no
gateway mutation. -/
theorem C10_missing_price_defaults_to_zero (env : HttpEnv) (d : ActionData)
    (uid : Option String)
    (hA : d.action = some "update_price" ∨ d.action = some "update_price_by_id")
    (hp : d.price = none) :
    LLMService.execute_action env d uid = ("Harga harus lebih dari 0.", []) := by
  rcases hA with h | h <;>
    simp [LLMService.execute_action, h, ProductService.update_product_price,
      ProductService.update_product_by_id, hp]

/-- C10 witness: a missing price field at a concrete action. -/
theorem C10_witness :
    ((⟨some "update_price_by_id", none, some 3, none, none, none⟩ : ActionData).action
          = some "update_price"
      ∨ (⟨some "update_price_by_id", none, some 3, none, none, none⟩ : ActionData).action
          = some "update_price_by_id")
    ∧ (⟨some "update_price_by_id", none, some 3, none, none, none⟩ : ActionData).price = none
    ∧ LLMService.execute_action envFail
        ⟨some "update_price_by_id", none, some 3, none, none, none⟩ none
        = ("Harga harus lebih dari 0.", []) :=
  ⟨Or.inr rfl, rfl,
   C10_missing_price_defaults_to_zero envFail _ none (Or.inr rfl) rfl⟩

/-- C1 counterexample: the claim says `parse("ubah 5 18000 per bks")` yields
`UpdateById{id:5, price:18000, unit:"bks"}`; on the code, the text contains
no branch keyword (`"ubah"` alone is not one and `"id"` does not occur), so
the fallback replies with the help message and performs no gateway call. -/
theorem C1_counterexample :
    LLMService.fallback_interpretation envFail "ubah 5 18000 per bks" none
        = (helpMessage, [])
    ∧ GatewayCall.updateById 5 18000 (some "bks")
        ∉ (LLMService.fallback_interpretation envFail "ubah 5 18000 per bks" none).2 := by
  constructor
  · rfl
  · decide

/-- C1 amended: the update-by-id branch is keyed on the substring `"id"`
(reached only when no earlier branch keyword occurs in the text); the id is
the first integer after `"id"`, while the price is the FIRST integer token
anywhere in the message — here the id itself — with an optional trailing
`per <word>` as unit.  `"ubah 5 18000 per bks"` matches no branch and yields
the help reply; `"ubah id 5 18000 per bks"` reaches the branch and requests
an update of id 5 with price 5 (not 18000) and unit `"bks"`. -/
theorem C1_amended_id_branch (env : HttpEnv) (uid : Option String) :
    LLMService.fallback_interpretation env "ubah 5 18000 per bks" uid = (helpMessage, [])
    ∧ (LLMService.fallback_interpretation env "ubah id 5 18000 per bks" uid).2
        = [GatewayCall.updateById 5 5 (some "bks")] := by
  refine ⟨rfl, ?_⟩
  rfl

/-- C2 counterexample: the claim says `parse("hapus 5")` yields
`DeleteById{id:5}`; on the code, the delete branch has no integer case, so
the remainder `"5"` is passed to the delete-by-name gateway operation. -/
theorem C2_counterexample :
    (LLMService.fallback_interpretation envFail "hapus 5" none).2
        = [GatewayCall.deleteByName "5"]
    ∧ GatewayCall.deleteById 5
        ∉ (LLMService.fallback_interpretation envFail "hapus 5" none).2 := by
  constructor
  · rfl
  · decide

/-- C3 counterexample: the claim puts the search keyword first in priority;
on the code, `"cari harga beras"` is captured by the price-query branch
(substring `"harga"`), which is checked before search, producing a
find-by-name of `"cari  beras"` instead of a search for `"harga beras"`. -/
theorem C3_counterexample :
    (LLMService.fallback_interpretation envFail "cari harga beras" none).2
        = [GatewayCall.getByName "cari  beras"]
    ∧ (LLMService.fallback_interpretation envFail "cari harga beras" none).2
        ≠ [GatewayCall.search "harga beras"] := by
  constructor
  · rfl
  · decide

/-- C3 amended: keywords are matched as substrings anywhere in the
lowercased text (not as leading keywords), and the branch priority is
price-query, update/create, delete, search, update-by-id — first matching
branch wins.  `parse("cari indomie")` still yields SearchProducts with query
`"indomie"`; `"cari harga beras"` goes to the price-query branch; and
`"tolong cari indomie"` matches search although `"cari"` is not leading. -/
theorem C3_amended_keyword_order (env : HttpEnv) (uid : Option String) :
    (LLMService.fallback_interpretation env "cari indomie" uid).2
        = [GatewayCall.search "indomie"]
    ∧ (LLMService.fallback_interpretation env "cari harga beras" uid).2
        = [GatewayCall.getByName "cari  beras"]
    ∧ (LLMService.fallback_interpretation env "tolong cari indomie" uid).2
        = [GatewayCall.search "tolong  indomie"] := by
  refine ⟨?_, ?_, ?_⟩ <;> rfl

/-- C2 amended: the delete branch treats any non-empty remainder, integer
or not, as a product name — `parse("hapus 5")` yields DeleteByName with name
`"5"` and `parse("hapus beras")` DeleteByName with `"beras"` — and no
execution path of the service (fallback or model-directed) ever invokes the
delete-by-id gateway operation, whose client method is dead code. -/
theorem C2_amended_delete_branch :
    (∀ env uid, (LLMService.fallback_interpretation env "hapus 5" uid).2
        = [GatewayCall.deleteByName "5"])
    ∧ (∀ env uid, (LLMService.fallback_interpretation env "hapus beras" uid).2
        = [GatewayCall.deleteByName "beras"])
    ∧ (∀ env llm message uid i,
        GatewayCall.deleteById i ∉ (LLMService.process_message env llm message uid).2) :=
  ⟨fun _ _ => rfl, fun _ _ => rfl,
   fun env llm message uid i => process_no_deleteById env llm message uid i⟩

/-- C2 witness: the no-delete-by-id conjunct at a concrete input. -/
theorem C2_witness :
    GatewayCall.deleteById 9
      ∉ (LLMService.process_message envFail (.failure "boom") "hapus 5" none).2 :=
  C2_amended_delete_branch.2.2 envFail (.failure "boom") "hapus 5" none 9

/-- C4 counterexample: with every HTTP call failing, the upsert-by-name
path replies with the SUCCESS message built from the mock product (ID 1) —
not with the generic failure reply embedding the reason. -/
theorem C4_counterexample :
    (ProductService.update_product_price envFail "minyak" 4000 none).1
        = "Harga minyak (ID: 1) berhasil diperbarui menjadi 4,000 ."
    ∧ (ProductService.update_product_price envFail "minyak" 4000 none).1
        ≠ "Terjadi kesalahan saat memperbarui produk: connection error" := by
  constructor
  · rfl
  · decide

/-- C4 amended: when the gateway signals a transport failure, no failure
reply reaches the user: the upsert-by-name path replies with the success
message built from the mock product (ID 1), while the update-by-id and
delete paths reply with the not-found message.  The executors own generic
failure replies are unreachable for gateway-level failures because the
gateway catches all its exceptions. -/
theorem C4_amended_gateway_failure (e1 e2 e3 e4 e5 name : String) (price : Int)
    (unit : Option String) (pid : Int) (hp : 0 < price) :
    (ProductService.update_product_price (failEnv e1 e2 e3 e4 e5) name price unit).1
        = "Harga " ++ name ++ " (ID: " ++ optIdStr (some 1) ++
            ") berhasil diperbarui menjadi " ++ pyFmtComma price ++ " " ++
            unit_text unit ++ "."
    ∧ (ProductService.update_product_by_id (failEnv e1 e2 e3 e4 e5) pid price unit).1
        = "Produk dengan ID " ++ toString pid ++ " tidak ditemukan."
    ∧ (ProductService.delete_product (failEnv e1 e2 e3 e4 e5) name).1
        = "Produk \x27" ++ name ++ "\x27 tidak ditemukan di database." := by
  have hnle : ¬ price ≤ 0 := by omega
  refine ⟨?_, ?_, ?_⟩
  · unfold ProductService.update_product_price
    rw [if_neg hnle]
    rfl
  · unfold ProductService.update_product_by_id
    rw [if_neg hnle]
    rfl
  · rfl

/-- C4 witness: the amended statement at concrete inputs. -/
theorem C4_witness :
    (0 : Int) < 4000
    ∧ (ProductService.update_product_price (failEnv "down" "down" "down" "down" "down")
          "minyak" 4000 none).1
        = "Harga " ++ "minyak" ++ " (ID: " ++ optIdStr (some 1) ++
            ") berhasil diperbarui menjadi " ++ pyFmtComma 4000 ++ " " ++
            unit_text none ++ "."
    ∧ (ProductService.update_product_by_id (failEnv "down" "down" "down" "down" "down")
          7 4000 none).1
        = "Produk dengan ID " ++ toString (7 : Int) ++ " tidak ditemukan."
    ∧ (ProductService.delete_product (failEnv "down" "down" "down" "down" "down") "minyak").1
        = "Produk \x27" ++ "minyak" ++ "\x27 tidak ditemukan di database." :=
  ⟨by decide,
   (C4_amended_gateway_failure "down" "down" "down" "down" "down" "minyak" 4000 none 7
      (by decide)).1,
   (C4_amended_gateway_failure "down" "down" "down" "down" "down" "minyak" 4000 none 7
      (by decide)).2.1,
   (C4_amended_gateway_failure "down" "down" "down" "down" "down" "minyak" 4000 none 7
      (by decide)).2.2⟩

/-- C5 counterexample: an unknown action discriminator from the language
model is answered with the fixed reply `"Aksi tidak dikenali."`, which is
not the help message the claim requires. -/
theorem C5_counterexample :
    LLMService.execute_action envFail ⟨some "terbang", none, none, none, none, none⟩ none
        = ("Aksi tidak dikenali.", [])
    ∧ "Aksi tidak dikenali." ≠ helpMessage := by
  constructor
  · rfl
  · decide

/-- C5 amended: an interpretation with no matching fallback keyword branch
yields the fixed help message and no gateway call; an unknown (or missing)
action discriminator from the language model yields the fixed reply
`"Aksi tidak dikenali."`, also with no gateway call. -/
theorem C5_amended_unrecognized :
    (∀ env d uid,
        d.action ≠ some "get_price" → d.action ≠ some "update_price" →
        d.action ≠ some "update_price_by_id" → d.action ≠ some "delete_product" →
        d.action ≠ some "search_products" →
        LLMService.execute_action env d uid = ("Aksi tidak dikenali.", []))
    ∧ (∀ env message uid,
        kwHit price_keywords (mlOf message) = false →
        kwHit update_keywords (mlOf message) = false →
        kwHit delete_keywords (mlOf message) = false →
        kwHit search_keywords (mlOf message) = false →
        kwHit id_keywords (mlOf message) = false →
        LLMService.fallback_interpretation env message uid = (helpMessage, [])) := by
  constructor
  · intro env d uid h1 h2 h3 h4 h5
    unfold LLMService.execute_action
    rw [if_neg h1, if_neg h2, if_neg h3, if_neg h4, if_neg h5]
  · intro env message uid h1 h2 h3 h4 h5
    simp only [LLMService.fallback_interpretation, h1, h2, h3, h4, h5]
    rfl

/-- C5 witness: both conjuncts at concrete inputs. -/
theorem C5_witness :
    LLMService.execute_action envFail ⟨some "terbang", none, none, none, none, none⟩ none
        = ("Aksi tidak dikenali.", [])
    ∧ LLMService.fallback_interpretation envFail "halo" none = (helpMessage, []) :=
  ⟨C5_amended_unrecognized.1 envFail _ none (by decide) (by decide) (by decide) (by decide)
      (by decide),
   C5_amended_unrecognized.2 envFail "halo" none (by decide) (by decide) (by decide)
      (by decide) (by decide)⟩

/-- C8 counterexample: an upsert-variant action whose price is 0 performs
ZERO gateway calls (the validation reply), not exactly one upsert call as
the claim universally requires. -/
theorem C8_counterexample :
    LLMService.execute_action envFail
        ⟨some "update_price", some "gula", none, some 0, none, none⟩ none
        = ("Harga harus lebih dari 0.", [])
    ∧ (LLMService.execute_action envFail
        ⟨some "update_price", some "gula", none, some 0, none, none⟩ none).2
        ≠ [GatewayCall.upsert "gula" 0 none] := by
  constructor
  · rfl
  · decide

/-- C8 amended: execution never calls a gateway operation other than the
one corresponding to the action variant, and when the price validation
passes (always, for non-price variants) it calls exactly that operation;
the Unrecognized variant calls none (`corresponding_call` is `none` and the
trace empty). -/
theorem C8_amended_gateway_dispatch (env : HttpEnv) (d : ActionData) (uid : Option String) :
    (∀ c ∈ (LLMService.execute_action env d uid).2, corresponding_call d = some c)
    ∧ (priceOk d = true →
        (LLMService.execute_action env d uid).2 = (corresponding_call d).toList) := by
  by_cases h1 : d.action = some "get_price"
  · refine ⟨?_, ?_⟩
    · intro c hc
      simp only [LLMService.execute_action, if_pos h1, get_product_price_tr,
        List.mem_singleton] at hc
      simp [corresponding_call, h1, hc]
    · intro _
      simp [LLMService.execute_action, if_pos h1, get_product_price_tr,
        corresponding_call, h1]
  · by_cases h2 : d.action = some "update_price"
    · have hor : d.action = some "update_price" ∨ d.action = some "update_price_by_id" :=
        Or.inl h2
      refine ⟨?_, ?_⟩
      · intro c hc
        simp only [LLMService.execute_action, if_neg h1, if_pos h2,
          update_product_price_tr] at hc
        split at hc
        · simp at hc
        · simp only [List.mem_singleton] at hc
          simp [corresponding_call, h1, h2, hc]
      · intro hpo
        simp only [priceOk, if_pos hor, decide_eq_true_eq] at hpo
        simp only [LLMService.execute_action, if_neg h1, if_pos h2,
          update_product_price_tr, if_neg (by omega : ¬ d.price.getD 0 ≤ 0)]
        simp [corresponding_call, h1, h2]
    · by_cases h3 : d.action = some "update_price_by_id"
      · have hor : d.action = some "update_price" ∨ d.action = some "update_price_by_id" :=
          Or.inr h3
        refine ⟨?_, ?_⟩
        · intro c hc
          simp only [LLMService.execute_action, if_neg h1, if_neg h2, if_pos h3,
            update_product_by_id_tr] at hc
          split at hc
          · simp at hc
          · simp only [List.mem_singleton] at hc
            simp [corresponding_call, h1, h2, h3, hc]
        · intro hpo
          simp only [priceOk, if_pos hor, decide_eq_true_eq] at hpo
          simp only [LLMService.execute_action, if_neg h1, if_neg h2, if_pos h3,
            update_product_by_id_tr, if_neg (by omega : ¬ d.price.getD 0 ≤ 0)]
          simp [corresponding_call, h1, h2, h3]
      · by_cases h4 : d.action = some "delete_product"
        · refine ⟨?_, ?_⟩
          · intro c hc
            simp only [LLMService.execute_action, if_neg h1, if_neg h2, if_neg h3,
              if_pos h4, delete_product_tr, List.mem_singleton] at hc
            simp [corresponding_call, h1, h2, h3, h4, hc]
          · intro _
            simp [LLMService.execute_action, if_neg h1, if_neg h2, if_neg h3,
              if_pos h4, delete_product_tr, corresponding_call, h1, h2, h3, h4]
        · by_cases h5 : d.action = some "search_products"
          · refine ⟨?_, ?_⟩
            · intro c hc
              simp only [LLMService.execute_action, if_neg h1, if_neg h2, if_neg h3,
                if_neg h4, if_pos h5, search_products_tr, List.mem_singleton] at hc
              simp [corresponding_call, h1, h2, h3, h4, h5, hc]
            · intro _
              simp [LLMService.execute_action, if_neg h1, if_neg h2, if_neg h3,
                if_neg h4, if_pos h5, search_products_tr, corresponding_call,
                h1, h2, h3, h4, h5]
          · refine ⟨?_, ?_⟩
            · intro c hc
              simp [LLMService.execute_action, if_neg h1, if_neg h2, if_neg h3,
                if_neg h4, if_neg h5] at hc
            · intro _
              simp [LLMService.execute_action, corresponding_call,
                if_neg h1, if_neg h2, if_neg h3, if_neg h4, if_neg h5]

/-- C8 witness: both conjuncts at a concrete valid upsert action. -/
theorem C8_witness :
    corresponding_call
        (⟨some "update_price", some "gula", none, some 7000, none, none⟩ : ActionData)
        = some (GatewayCall.upsert "gula" 7000 none)
    ∧ (LLMService.execute_action envFail
          ⟨some "update_price", some "gula", none, some 7000, none, none⟩ none).2
        = (corresponding_call
            (⟨some "update_price", some "gula", none, some 7000, none, none⟩ : ActionData)).toList :=
  ⟨(C8_amended_gateway_dispatch envFail _ none).1 (GatewayCall.upsert "gula" 7000 none)
      (by decide),
   (C8_amended_gateway_dispatch envFail _ none).2 (by decide)⟩

/-- C7 witness: a concrete instantiation of the non-empty-reply theorem. -/
theorem C7_witness :
    (LLMService.process_message envFail (.failure "boom") "" none).1 ≠ "" :=
  C7_never_empty_reply envFail (.failure "boom") "" none
